import Mathlib

/-!
Verification of the supply-chain simulation core of this repository
(`backend/simulation/core.py` and the route/service layer in `backend/app`).

Conventions of the embedding:
* Python floats are modelled as exact rationals (`ℚ`); every number occurring
  in the claims is exactly representable, and the float computations at those
  inputs are exact, so the rational model is faithful there.
* Python ints are modelled as `ℤ`.
* Mutation of a dataclass field is modelled by returning the updated value.
* Randomness (`random.choice`, `random.gauss`), wall-clock timestamps
  (`datetime.now`) and the external AI provider are modelled as oracle
  arguments: the embedded function is parameterised by the values the
  impure call would produce.
* A FastAPI route raising `HTTPException` is modelled as returning
  `Except ApiError _` together with the session state as it is left behind
  (Python mutates the session in place, so an error does not undo earlier
  mutations).
-/

/-- `int(x)` in Python truncates a float toward zero. -/
def pyInt (q : ℚ) : ℤ :=
  if 0 ≤ q then ⌊q⌋ else -⌊-q⌋

/-- `EconomicParams` dataclass from `simulation/core.py`. -/
structure EconomicParams where
  retail_price : ℚ := 50
  buyer_salvage_value : ℚ := 3
  return_shipping_buyer : ℚ := 1
  supplier_cost : ℚ := 12
  supplier_salvage_value : ℚ := 12
  return_handling_supplier : ℚ := 1/2
deriving DecidableEq

/-- `Contract` dataclass from `simulation/core.py`, after `__post_init__`
has resolved `remaining_rounds` (callers in the repository always construct
contracts with `remaining_rounds=None`, which `__post_init__` replaces by
`length`; `Contract.create` below models exactly that construction). -/
structure Contract where
  wholesale_price : ℚ
  buyback_price : ℚ
  cap_type : String
  cap_value : ℚ
  length : ℤ
  remaining_rounds : ℤ
  contract_type : String
  revenue_share : ℚ
deriving DecidableEq

/-- Constructing a `Contract` with `remaining_rounds=None`:
`__post_init__` sets `remaining_rounds := length`. -/
def Contract.create (w b : ℚ) (capT : String) (capV : ℚ) (len : ℤ)
    (ct : String) (rs : ℚ) : Contract :=
  { wholesale_price := w, buyback_price := b, cap_type := capT,
    cap_value := capV, length := len, remaining_rounds := len,
    contract_type := ct, revenue_share := rs }

/-- `RoundInput` dataclass. -/
structure RoundInput where
  order_quantity : ℤ
  realized_demand : ℤ
deriving DecidableEq

/-- `RoundOutput` dataclass. -/
structure RoundOutput where
  order_quantity : ℤ
  realized_demand : ℤ
  sales : ℤ
  unsold : ℤ
  returns : ℤ
  leftovers : ℤ
  buyer_revenue : ℚ := 0
  buyer_cost : ℚ := 0
  buyer_profit : ℚ := 0
  supplier_revenue : ℚ := 0
  supplier_cost : ℚ := 0
  supplier_profit : ℚ := 0
  retail_revenue : ℚ := 0
  salvage_revenue_buyer : ℚ := 0
  buyback_refund_buyer : ℚ := 0
  wholesale_cost_buyer : ℚ := 0
  return_shipping_cost_buyer : ℚ := 0
  revenue_share_payment_buyer : ℚ := 0
  wholesale_revenue_supplier : ℚ := 0
  salvage_revenue_supplier : ℚ := 0
  production_cost_supplier : ℚ := 0
  buyback_cost_supplier : ℚ := 0
  return_handling_cost_supplier : ℚ := 0
  revenue_share_revenue_supplier : ℚ := 0
deriving DecidableEq

/-- `simulate_round` from `simulation/core.py`.  The Python function reads
the process-wide parameters via `get_current_params()`; the embedding takes
them as the `params` argument.  The in-place decrement of
`contract.remaining_rounds` is modelled by returning the updated contract
alongside the `RoundOutput`. -/
def simulate_round (params : EconomicParams) (contract : Contract)
    (round_input : RoundInput) : RoundOutput × Contract :=
  let Q := round_input.order_quantity
  let D := round_input.realized_demand
  let sales := min Q D
  let unsold := max (Q - D) 0
  -- `ct = contract.contract_type or "buyback"`: the empty string is falsy
  let ct := if contract.contract_type = "" then "buyback" else contract.contract_type
  let out : RoundOutput :=
    if ct = "buyback" then
      let cap : ℚ := if contract.cap_type = "fraction" then contract.cap_value * Q
                     else contract.cap_value
      let returns := min unsold (pyInt cap)
      let leftovers := unsold - returns
      let retail_revenue := params.retail_price * sales
      let salvage_revenue_buyer := params.buyer_salvage_value * leftovers
      let buyback_refund_buyer := contract.buyback_price * returns
      let wholesale_cost_buyer := contract.wholesale_price * Q
      let return_shipping_cost_buyer := params.return_shipping_buyer * returns
      let wholesale_revenue_supplier := contract.wholesale_price * Q
      let salvage_revenue_supplier := params.supplier_salvage_value * returns
      let production_cost_supplier := params.supplier_cost * Q
      let buyback_cost_supplier := contract.buyback_price * returns
      let return_handling_cost_supplier := params.return_handling_supplier * returns
      { order_quantity := Q, realized_demand := D, sales := sales,
        unsold := unsold, returns := returns, leftovers := leftovers,
        buyer_revenue := retail_revenue + salvage_revenue_buyer + buyback_refund_buyer,
        buyer_cost := wholesale_cost_buyer + return_shipping_cost_buyer,
        buyer_profit := retail_revenue + salvage_revenue_buyer + buyback_refund_buyer
          - wholesale_cost_buyer - return_shipping_cost_buyer,
        supplier_revenue := wholesale_revenue_supplier + salvage_revenue_supplier,
        supplier_cost := production_cost_supplier + buyback_cost_supplier
          + return_handling_cost_supplier,
        supplier_profit := wholesale_revenue_supplier + salvage_revenue_supplier
          - production_cost_supplier - buyback_cost_supplier - return_handling_cost_supplier,
        retail_revenue := retail_revenue,
        salvage_revenue_buyer := salvage_revenue_buyer,
        buyback_refund_buyer := buyback_refund_buyer,
        wholesale_cost_buyer := wholesale_cost_buyer,
        return_shipping_cost_buyer := return_shipping_cost_buyer,
        wholesale_revenue_supplier := wholesale_revenue_supplier,
        salvage_revenue_supplier := salvage_revenue_supplier,
        production_cost_supplier := production_cost_supplier,
        buyback_cost_supplier := buyback_cost_supplier,
        return_handling_cost_supplier := return_handling_cost_supplier }
    else if ct = "revenue_sharing" then
      let returns : ℤ := 0
      let leftovers := unsold
      let share := max 0 (min contract.revenue_share 1)
      let retail_revenue := params.retail_price * sales
      let revenue_share_payment_buyer := share * retail_revenue
      let salvage_revenue_buyer := params.buyer_salvage_value * leftovers
      let wholesale_cost_buyer := contract.wholesale_price * Q
      let wholesale_revenue_supplier := contract.wholesale_price * Q
      let revenue_share_revenue_supplier := share * retail_revenue
      let production_cost_supplier := params.supplier_cost * Q
      { order_quantity := Q, realized_demand := D, sales := sales,
        unsold := unsold, returns := returns, leftovers := leftovers,
        buyer_revenue := retail_revenue + salvage_revenue_buyer,
        buyer_cost := wholesale_cost_buyer + revenue_share_payment_buyer,
        buyer_profit := retail_revenue - revenue_share_payment_buyer
          + salvage_revenue_buyer - wholesale_cost_buyer,
        supplier_revenue := wholesale_revenue_supplier + revenue_share_revenue_supplier,
        supplier_cost := production_cost_supplier,
        supplier_profit := wholesale_revenue_supplier + revenue_share_revenue_supplier
          - production_cost_supplier,
        retail_revenue := retail_revenue,
        salvage_revenue_buyer := salvage_revenue_buyer,
        wholesale_cost_buyer := wholesale_cost_buyer,
        revenue_share_payment_buyer := revenue_share_payment_buyer,
        wholesale_revenue_supplier := wholesale_revenue_supplier,
        production_cost_supplier := production_cost_supplier,
        revenue_share_revenue_supplier := revenue_share_revenue_supplier }
    else if ct = "hybrid" then
      let cap : ℚ := if contract.cap_type = "fraction" then contract.cap_value * Q
                     else contract.cap_value
      let returns := min unsold (pyInt cap)
      let leftovers := unsold - returns
      let share := max 0 (min contract.revenue_share 1)
      let retail_revenue := params.retail_price * sales
      let revenue_share_payment_buyer := share * retail_revenue
      let salvage_revenue_buyer := params.buyer_salvage_value * leftovers
      let buyback_refund_buyer := contract.buyback_price * returns
      let wholesale_cost_buyer := contract.wholesale_price * Q
      let return_shipping_cost_buyer := params.return_shipping_buyer * returns
      let wholesale_revenue_supplier := contract.wholesale_price * Q
      let revenue_share_revenue_supplier := share * retail_revenue
      let salvage_revenue_supplier := params.supplier_salvage_value * returns
      let production_cost_supplier := params.supplier_cost * Q
      let buyback_cost_supplier := contract.buyback_price * returns
      let return_handling_cost_supplier := params.return_handling_supplier * returns
      { order_quantity := Q, realized_demand := D, sales := sales,
        unsold := unsold, returns := returns, leftovers := leftovers,
        buyer_revenue := retail_revenue + salvage_revenue_buyer + buyback_refund_buyer,
        buyer_cost := wholesale_cost_buyer + return_shipping_cost_buyer
          + revenue_share_payment_buyer,
        buyer_profit := retail_revenue - revenue_share_payment_buyer
          + salvage_revenue_buyer + buyback_refund_buyer
          - wholesale_cost_buyer - return_shipping_cost_buyer,
        supplier_revenue := wholesale_revenue_supplier + salvage_revenue_supplier
          + revenue_share_revenue_supplier,
        supplier_cost := production_cost_supplier + buyback_cost_supplier
          + return_handling_cost_supplier,
        supplier_profit := wholesale_revenue_supplier + revenue_share_revenue_supplier
          + salvage_revenue_supplier - production_cost_supplier
          - buyback_cost_supplier - return_handling_cost_supplier,
        retail_revenue := retail_revenue,
        salvage_revenue_buyer := salvage_revenue_buyer,
        buyback_refund_buyer := buyback_refund_buyer,
        wholesale_cost_buyer := wholesale_cost_buyer,
        return_shipping_cost_buyer := return_shipping_cost_buyer,
        revenue_share_payment_buyer := revenue_share_payment_buyer,
        wholesale_revenue_supplier := wholesale_revenue_supplier,
        salvage_revenue_supplier := salvage_revenue_supplier,
        production_cost_supplier := production_cost_supplier,
        buyback_cost_supplier := buyback_cost_supplier,
        return_handling_cost_supplier := return_handling_cost_supplier,
        revenue_share_revenue_supplier := revenue_share_revenue_supplier }
    else
      let returns : ℤ := 0
      let leftovers := unsold
      let retail_revenue := params.retail_price * sales
      let salvage_revenue_buyer := params.buyer_salvage_value * leftovers
      let wholesale_cost_buyer := contract.wholesale_price * Q
      let wholesale_revenue_supplier := contract.wholesale_price * Q
      let production_cost_supplier := params.supplier_cost * Q
      { order_quantity := Q, realized_demand := D, sales := sales,
        unsold := unsold, returns := returns, leftovers := leftovers,
        buyer_revenue := retail_revenue + salvage_revenue_buyer,
        buyer_cost := wholesale_cost_buyer,
        buyer_profit := retail_revenue + salvage_revenue_buyer - wholesale_cost_buyer,
        supplier_revenue := wholesale_revenue_supplier,
        supplier_cost := production_cost_supplier,
        supplier_profit := wholesale_revenue_supplier - production_cost_supplier,
        retail_revenue := retail_revenue,
        salvage_revenue_buyer := salvage_revenue_buyer,
        wholesale_cost_buyer := wholesale_cost_buyer,
        wholesale_revenue_supplier := wholesale_revenue_supplier,
        production_cost_supplier := production_cost_supplier }
  (out, { contract with remaining_rounds := contract.remaining_rounds - 1 })

/-- `RoundSummary` dataclass from `simulation/core.py`. -/
structure RoundSummary where
  round_index : ℤ
  order_quantity : ℤ
  realized_demand : ℤ
  buyer_revenue : ℚ
  buyer_cost : ℚ
  buyer_profit : ℚ
  supplier_revenue : ℚ
  supplier_cost : ℚ
  supplier_profit : ℚ
  wholesale_price : ℚ
  buyback_price : ℚ
  cap_type : String
  cap_value : ℚ
  contract_length : ℤ
  remaining_rounds : ℤ
  contract_type : String
  revenue_share : ℚ
deriving DecidableEq

/-- One entry of `negotiation_chat_history`: a dict
`{"role": ..., "content": ...}`. -/
structure ChatMsg where
  role : String
  content : String
deriving DecidableEq

/-- One entry of `negotiation_history` (the dicts built in
`routes/negotiation.py` and `routes/game.py`).  `final_contract` holds the
field values copied out by `to_contract_data`. -/
structure NegotiationRecord where
  chat_messages : List ChatMsg
  final_decision : Option String
  final_contract : Option Contract
  start_time : Option String
  end_time : Option String
deriving DecidableEq

/-- `GameState` dataclass from `simulation/core.py`.  The extra field
`current_negotiation_start_time` models the dynamic attribute
`_current_negotiation_start_time` that `routes/negotiation.py` sets on
the session object; `getattr(state, "_current_negotiation_start_time",
None)` reads `none` when it was never assigned, which is the initial
value here. -/
structure GameState where
  round_number : ℤ
  total_rounds : ℤ
  contract : Contract
  cumulative_buyer_profit : ℚ
  cumulative_supplier_profit : ℚ
  historical_demands : List ℤ
  method : String
  total_demand : ℤ := 0
  total_sales : ℤ := 0
  total_returns : ℤ := 0
  total_leftovers : ℤ := 0
  round_summaries : List RoundSummary := []
  negotiation_chat_history : List ChatMsg := []
  negotiation_draft_contract : Option Contract := none
  initial_contract_type : Option String := none
  negotiation_history : List NegotiationRecord := []
  ended_early : Bool := false
  current_negotiation_start_time : Option String := none
deriving DecidableEq

/-- `GameState.is_contract_expired`. -/
def GameState.is_contract_expired (s : GameState) : Bool :=
  s.contract.remaining_rounds ≤ 0

/-- `is_game_over` from `app/services/game_service.py`. -/
def is_game_over (s : GameState) : Bool :=
  s.round_number > s.total_rounds || s.ended_early

/-- `has_active_contract` from `app/services/game_service.py`. -/
def has_active_contract (s : GameState) : Bool :=
  s.contract.remaining_rounds > 0

/-- The exceptions `generate_demand` can raise: `random.choice` on an
empty list raises `IndexError`; `statistics.mean` on an empty list raises
`StatisticsError`; an unknown method raises
`ValueError("Unknown demand generation method")` (the spec calls this
`InvalidArgumentError`). -/
inductive DemandError where
  | indexError
  | statisticsError
  | invalidMethod
deriving DecidableEq

/-- `generate_demand` from `simulation/core.py`.  The randomness is an
oracle: `ix` stands for the index `random.choice` picks (any natural
number; it is reduced mod the length, so every list position is
reachable), and `gauss` stands for the value drawn by
`random.gauss(mean, stdev)` in the `"normal"` branch (the mean and
standard deviation only shape the distribution of that draw, not the
arithmetic applied to it). -/
def generate_demand (historical_demands : List ℤ) (method : String)
    (ix : ℕ) (gauss : ℚ) : Except DemandError ℤ :=
  if method = "bootstrap" then
    if historical_demands.isEmpty then .error .indexError
    else .ok (historical_demands.getD (ix % historical_demands.length) 0)
  else if method = "normal" then
    if historical_demands.isEmpty then .error .statisticsError
    else .ok (max 0 (pyInt gauss))
  else
    .error .invalidMethod

/-- `simulate_game_round` from `simulation/core.py`.  The demand oracle
arguments are passed through to `generate_demand`.  A raised exception is
an `.error`; it can only come from `generate_demand`, which runs before
any state is touched, so the error case leaves the state unmodified.
Note that the `RoundSummary` snapshot in the source reads
`state.contract` *after* `simulate_round` has decremented
`remaining_rounds` in place, so the recorded `remaining_rounds` is the
post-decrement value. -/
def simulate_game_round (params : EconomicParams) (s : GameState)
    (order_quantity : ℤ) (ix : ℕ) (gauss : ℚ) :
    Except DemandError (RoundOutput × GameState) :=
  match generate_demand s.historical_demands s.method ix gauss with
  | .error e => .error e
  | .ok D =>
    let s1 := { s with historical_demands := s.historical_demands ++ [D] }
    let round_input : RoundInput := { order_quantity := order_quantity, realized_demand := D }
    let rc := simulate_round params s1.contract round_input
    let round_output := rc.1
    let contract1 := rc.2
    let summary : RoundSummary := {
      round_index := s1.round_number,
      order_quantity := order_quantity,
      realized_demand := D,
      buyer_revenue := round_output.buyer_revenue,
      buyer_cost := round_output.buyer_cost,
      buyer_profit := round_output.buyer_profit,
      supplier_revenue := round_output.supplier_revenue,
      supplier_cost := round_output.supplier_cost,
      supplier_profit := round_output.supplier_profit,
      wholesale_price := contract1.wholesale_price,
      buyback_price := contract1.buyback_price,
      cap_type := contract1.cap_type,
      cap_value := contract1.cap_value,
      contract_length := contract1.length,
      remaining_rounds := contract1.remaining_rounds,
      contract_type := contract1.contract_type,
      revenue_share := contract1.revenue_share }
    .ok (round_output, { s1 with
      contract := contract1,
      cumulative_buyer_profit := s1.cumulative_buyer_profit + round_output.buyer_profit,
      cumulative_supplier_profit := s1.cumulative_supplier_profit + round_output.supplier_profit,
      total_demand := s1.total_demand + D,
      total_sales := s1.total_sales + round_output.sales,
      total_returns := s1.total_returns + round_output.returns,
      total_leftovers := s1.total_leftovers + round_output.leftovers,
      round_summaries := s1.round_summaries ++ [summary],
      round_number := s1.round_number + 1 })

/-- The `HTTPException`s of the route layer (`app/routes/*.py`), named
after the spec's error taxonomy.  `internalDemandFailure` models the
unhandled exception that would escape `place_order` if `generate_demand`
raised. -/
inductive ApiError where
  | invalidDemandMethod
  | gameOver
  | gameNotOver
  | noActiveContract
  | contractAlreadyActive
  | noDraftAvailable
  | invalidContractType
  | invalidLength
  | invalidCapType
  | invalidCapValue
  | invalidRevenueShare
  | internalDemandFailure (e : DemandError)
deriving DecidableEq

/-- The session state `start_game` (`app/routes/game.py`) builds on
success: round 1, zero aggregates, a zero placeholder contract of length
0 (hence `remaining_rounds = 0`: not active), a per-session copy of the
default demand history, and empty negotiation state. -/
def init_state (rounds : ℤ) (method : String) (history : List ℤ) : GameState :=
  { round_number := 1,
    total_rounds := rounds,
    contract := Contract.create 0 0 "fraction" 0 0 "buyback" 0,
    cumulative_buyer_profit := 0,
    cumulative_supplier_profit := 0,
    historical_demands := history,
    method := method }

/-- `start_game` from `app/routes/game.py`.  `history` is the module
global `DEFAULT_HISTORY` (loaded from configuration; the CSV loader
always yields a non-empty list).  The route validates the demand method
before creating any state. -/
def start_game (rounds : ℤ) (method : String) (history : List ℤ) :
    Except ApiError GameState :=
  if method ≠ "bootstrap" ∧ method ≠ "normal" then .error .invalidDemandMethod
  else .ok (init_state rounds method history)

/-- `place_order` from `app/routes/game.py`.  The session-lookup 404 is
outside the model (the session is the `s` argument).  Each route returns
its result together with the session state it leaves behind; all of this
route's failures happen before any mutation, so the input state is
returned unchanged on error. -/
def place_order (params : EconomicParams) (order_quantity : ℤ)
    (ix : ℕ) (gauss : ℚ) (s : GameState) :
    Except ApiError RoundOutput × GameState :=
  if is_game_over s then (.error .gameOver, s)
  else if s.contract.remaining_rounds ≤ 0 then (.error .noActiveContract, s)
  else
    match simulate_game_round params s order_quantity ix gauss with
    | .error e => (.error (.internalDemandFailure e), s)
    | .ok (out, s1) => (.ok out, s1)

/-- The decisions the supplier evaluation can yield.  The AI reply parser
in `evaluate_proposal_with_ai` only extracts `accept` or `reject` (the
regex is `DECISION:\s*(accept|reject)`) and every fallback returns one of
those two, so no third decision value is reachable on an initial
proposal; the dead `"counter"` branch of the `negotiate` route is
therefore not part of the model. -/
inductive Decision where
  | accept
  | reject
deriving DecidableEq

/-- `evaluate_proposal_simple_logic` from
`app/services/negotiation_service.py` (the pure no-AI fallback).
Message texts are abridged where the original contains characters this
development avoids; only the decision values and the absence of a
counter-offer carry specification weight. -/
def evaluate_proposal_simple_logic (proposed : Contract)
    (params : EconomicParams) : Decision × String × Option Contract :=
  let min_wholesale := params.supplier_cost + 1
  let acceptable_wholesale := min_wholesale + 4
  let max_buyback := proposed.wholesale_price - 1
  if proposed.wholesale_price < min_wholesale then
    (.reject, "The wholesale price is too low for me to operate profitably.", none)
  else if proposed.buyback_price > max_buyback then
    (.reject, "The buyback price is too high relative to the wholesale price.", none)
  else if proposed.wholesale_price < acceptable_wholesale then
    (.reject, "The wholesale price is too low given the demand risk.", none)
  else
    (.accept, "These terms are acceptable to me. The contract is now active.", none)

/-- `supplier_evaluate_contract` from
`app/services/negotiation_service.py`.  The external AI evaluation
(`evaluate_proposal_with_ai`, including its fallbacks to
`evaluate_proposal_simple_logic`) is the oracle `ai`: an arbitrary
function producing a decision and a message.  The structural guard
rejecting `buyback_price >= wholesale_price` runs before the oracle is
consulted, and no path produces a counter contract. -/
def supplier_evaluate_contract (ai : Contract → Decision × String)
    (proposed : Contract) : Decision × String × Option Contract :=
  if proposed.buyback_price ≥ proposed.wholesale_price then
    (.reject,
     "I cannot accept a buyback price that is greater than or equal to the wholesale price.",
     none)
  else
    ((ai proposed).1, (ai proposed).2, none)

/-- `supplier_evaluate_contract` in the configuration with no AI
provider: `evaluate_proposal_with_ai` falls through to
`evaluate_proposal_simple_logic`. -/
def supplier_evaluate_no_ai (params : EconomicParams) (proposed : Contract) :
    Decision × String × Option Contract :=
  supplier_evaluate_contract
    (fun c => ((evaluate_proposal_simple_logic c params).1,
               (evaluate_proposal_simple_logic c params).2.1))
    proposed

/-- `NegotiationConfigData` (`app/schemas.py`), restricted to the fields
the negotiation routes read. -/
structure NegotiationConfigData where
  contract_types_available : List String
  length_min : ℤ
  length_max : ℤ
  cap_type_allowed : String
  cap_value_min : ℚ
  cap_value_max : ℚ
  revenue_share_min : ℚ
  revenue_share_max : ℚ
deriving DecidableEq

/-- The hardcoded default negotiation config of
`app/services/config_service.py`. -/
def default_negotiation_config : NegotiationConfigData :=
  { contract_types_available := ["buyback", "revenue_sharing", "hybrid"],
    length_min := 1,
    length_max := 10,
    cap_type_allowed := "fraction",
    cap_value_min := 0,
    cap_value_max := 1/2,
    revenue_share_min := 0,
    revenue_share_max := 1 }

/-- `NegotiateRequest` (`app/schemas.py`): the student's initial
proposal. -/
structure NegotiateRequest where
  wholesale_price : ℚ
  buyback_price : ℚ
  cap_type : String
  cap_value : ℚ
  length : ℤ
  contract_type : String
  revenue_share : ℚ
deriving DecidableEq

/-- The force-close block at the top of `negotiate`
(`app/routes/negotiation.py`): when a previous negotiation is still open
(non-empty transcript or a draft), append it to history as abandoned
(`final_decision=None`, `start_time=None`). -/
def force_close_previous (s : GameState) (now : String) : GameState :=
  if s.negotiation_chat_history ≠ [] ∨ s.negotiation_draft_contract ≠ none then
    { s with negotiation_history := s.negotiation_history ++
        [{ chat_messages := s.negotiation_chat_history,
           final_decision := none,
           final_contract := none,
           start_time := none,
           end_time := some now }] }
  else s

/-- The clearing block of `negotiate`: after force-closing, start the new
negotiation with a fresh transcript, no draft, and the new start time. -/
def begin_negotiation (s : GameState) (now : String) : GameState :=
  { force_close_previous s now with
    negotiation_chat_history := [],
    negotiation_draft_contract := none,
    current_negotiation_start_time := some now }

/-- The accept block shared by `negotiate` and (in structure)
`accept_counter`: make `accepted` the active contract with
`remaining_rounds := length`, record the closed negotiation
(`final_decision="accept"`), and clear the open-negotiation state. -/
def activate_contract (s : GameState) (accepted : Contract) (now : String) :
    GameState :=
  { s with
    contract := { accepted with remaining_rounds := accepted.length },
    negotiation_history := s.negotiation_history ++
      [{ chat_messages := s.negotiation_chat_history,
         final_decision := some "accept",
         final_contract := some accepted,
         start_time := s.current_negotiation_start_time,
         end_time := some now }],
    negotiation_chat_history := [],
    negotiation_draft_contract := none,
    current_negotiation_start_time := none }

/-- Appending one turn to the open negotiation transcript. -/
def append_chat (s : GameState) (role content : String) : GameState :=
  { s with negotiation_chat_history :=
      s.negotiation_chat_history ++ [{ role := role, content := content }] }

/-- `negotiate` from `app/routes/negotiation.py`.  `cfg` is the loaded
negotiation config, `ai` the external evaluation oracle, `now` the
timestamp `datetime.now().isoformat()` would produce.  Mirrors the
source order precisely: game-over and active-contract guards, then
force-closing of any previous open negotiation and clearing of the
negotiation state (`begin_negotiation`), then the five validation
checks, then storage of the fixed `initial_contract_type`, then the
supplier evaluation.  The validation failures occur *after* the
clearing, so they leave the already-mutated state behind. -/
def negotiate (cfg : NegotiationConfigData) (ai : Contract → Decision × String)
    (now : String) (req : NegotiateRequest) (s : GameState) :
    Except ApiError (Decision × String) × GameState :=
  if is_game_over s then (.error .gameOver, s)
  else if has_active_contract s then (.error .contractAlreadyActive, s)
  else
    let s2 := begin_negotiation s now
    if req.contract_type ∉ cfg.contract_types_available then
      (.error .invalidContractType, s2)
    else if req.length < cfg.length_min ∨ req.length > cfg.length_max then
      (.error .invalidLength, s2)
    else if cfg.cap_type_allowed = "fraction" ∧ req.cap_type ≠ "fraction" then
      (.error .invalidCapType, s2)
    else if cfg.cap_type_allowed = "unit" ∧ req.cap_type ≠ "unit" then
      (.error .invalidCapType, s2)
    else if req.cap_value < cfg.cap_value_min ∨ req.cap_value > cfg.cap_value_max then
      (.error .invalidCapValue, s2)
    else if (req.contract_type = "revenue_sharing" ∨ req.contract_type = "hybrid") ∧
        (req.revenue_share < cfg.revenue_share_min ∨ req.revenue_share > cfg.revenue_share_max) then
      (.error .invalidRevenueShare, s2)
    else
      let proposed := Contract.create req.wholesale_price req.buyback_price
        req.cap_type req.cap_value req.length req.contract_type req.revenue_share
      let s3 := { s2 with initial_contract_type := some req.contract_type }
      let ev := supplier_evaluate_contract ai proposed
      match ev.1 with
      | .accept => (.ok (.accept, ev.2.1), activate_contract s3 proposed now)
      | .reject => (.ok (.reject, ev.2.1), append_chat s3 "supplier" ev.2.1)

/-- The contract fields extracted from the JSON object an AI chat reply
may embed (`generate_chat_response` in `app/services/ai_service.py`),
after the `.get(...)` defaulting has been applied: `wholesale_price` and
`buyback_price` default to 0, `cap_value` to the configured maximum,
`length` to the configured minimum when both JSON keys are falsy, and
`revenue_share` to the configured minimum.  The JSON values are
attacker/AI-controlled free text, so every combination of field values is
possible; the oracle supplies them directly.  The JSON object's own
`contract_type` key is ignored by the source (the fixed initial type is
used instead). -/
structure RawDraft where
  wholesale_price : ℚ
  buyback_price : ℚ
  cap_type : String
  cap_value : ℚ
  length : ℤ
  revenue_share : ℚ
deriving DecidableEq

/-- Draft-contract construction and validation from
`generate_chat_response` (`app/services/ai_service.py`): build a
`Contract` from the JSON fields with the contract type forced to the
negotiation's fixed initial type (`initial_ct or "buyback"`); keep it
only if `wholesale_price > 0`, `buyback_price >= 0` and
`buyback_price < wholesale_price`, clamping `length`, `cap_value` and
`revenue_share` to the configured ranges and falling back to `"buyback"`
or `"fraction"` for invalid type strings.  Note the clamps adjust the
`length` field but not `remaining_rounds` (which `__post_init__` set to
the unclamped length). -/
def mk_draft_from_json (cfg : NegotiationConfigData)
    (initial_ct : Option String) (raw : RawDraft) : Option Contract :=
  let contract_type_to_use :=
    match initial_ct with
    | none => "buyback"
    | some t => if t = "" then "buyback" else t
  let c0 := Contract.create raw.wholesale_price raw.buyback_price
    raw.cap_type raw.cap_value raw.length contract_type_to_use raw.revenue_share
  if c0.wholesale_price > 0 ∧ c0.buyback_price ≥ 0 ∧
      c0.buyback_price < c0.wholesale_price then
    let len1 := max cfg.length_min (min c0.length cfg.length_max)
    let capv1 :=
      if c0.cap_type = "fraction" then
        max cfg.cap_value_min (min c0.cap_value cfg.cap_value_max)
      else if c0.cap_type = "unit" then
        max cfg.cap_value_min c0.cap_value
      else c0.cap_value
    let rs1 := max cfg.revenue_share_min (min c0.revenue_share cfg.revenue_share_max)
    let ct1 :=
      if c0.contract_type = "buyback" ∨ c0.contract_type = "revenue_sharing" ∨
          c0.contract_type = "hybrid" then c0.contract_type
      else "buyback"
    let capt1 := if c0.cap_type = "fraction" ∨ c0.cap_type = "unit" then c0.cap_type
      else "fraction"
    let c1 : Contract :=
      { c0 with
        length := len1,
        cap_value := capv1,
        revenue_share := rs1,
        contract_type := ct1,
        cap_type := capt1 }
    some c1
  else
    none

/-- The observable outcomes of one call to the chat provider inside
`generate_chat_response` (`app/services/ai_service.py`):
* `noClient`: no AI provider configured — static message, no draft;
* `apiFailure k`: the provider call raised — one of three rotating
  fallback messages (index `k`), existing draft kept;
* `parseFailure`: the reply was not the expected JSON — static message,
  existing draft kept;
* `reply msg raw`: a parsed JSON reply with a non-empty message and an
  optional embedded contract object. -/
inductive ChatOutcome where
  | noClient
  | apiFailure (k : ℕ)
  | parseFailure
  | reply (msg : String) (raw : Option RawDraft)
deriving DecidableEq

/-- The three rotating fallback messages of `generate_chat_response`
(abridged). -/
def chat_fallback_message (k : ℕ) : String :=
  if k % 3 = 0 then "I understand you are asking about contract terms."
  else if k % 3 = 1 then "Let me help you understand the contract structure."
  else "I am here to negotiate. What changes are you proposing to the contract?"

/-- `generate_chat_response` from `app/services/ai_service.py`, reduced
to its observable effect: the supplier message and the draft contract it
returns.  The prompt assembly only influences which `ChatOutcome` the
provider oracle produces. -/
def generate_chat_response (cfg : NegotiationConfigData)
    (outcome : ChatOutcome) (current_draft : Option Contract)
    (initial_ct : Option String) : String × Option Contract :=
  match outcome with
  | .noClient =>
      ("I am open to discussing contract terms. What would you like to adjust?", none)
  | .apiFailure k => (chat_fallback_message k, current_draft)
  | .parseFailure =>
      ("I am having trouble processing that. Could you rephrase your proposal?",
       current_draft)
  | .reply msg raw =>
      (msg,
       match raw with
       | none => none
       | some r => mk_draft_from_json cfg initial_ct r)

/-- `negotiation_chat` from `app/routes/negotiation.py`: append the
student message, call the chat provider, append the supplier reply, and
store the draft contract only when the provider produced one (a `None`
draft leaves any existing draft in place). -/
def negotiation_chat (cfg : NegotiationConfigData) (outcome : ChatOutcome)
    (message : String) (s : GameState) : Except ApiError String × GameState :=
  if is_game_over s then (.error .gameOver, s)
  else
    let s1 : GameState :=
      { s with negotiation_chat_history :=
          s.negotiation_chat_history ++ [{ role := "student", content := message }] }
    let resp := generate_chat_response cfg outcome s1.negotiation_draft_contract
      s1.initial_contract_type
    let s2 : GameState :=
      { s1 with negotiation_chat_history :=
          s1.negotiation_chat_history ++ [{ role := "supplier", content := resp.1 }] }
    let s3 := if resp.2.isSome then { s2 with negotiation_draft_contract := resp.2 }
      else s2
    (.ok resp.1, s3)

/-- `accept_counter` from `app/routes/negotiation.py`.  Accepting
activates the draft (`remaining_rounds := length`, using the *clamped*
length), closes the negotiation into history (recording the draft as it
was before that assignment) and clears the open-negotiation state;
rejecting discards the draft, appends a context message when a draft
existed, and keeps the chat open.  Transcript texts abridged. -/
def accept_counter (accept : Bool) (now : String) (s : GameState) :
    Except ApiError Unit × GameState :=
  if is_game_over s then (.error .gameOver, s)
  else if accept then
    match s.negotiation_draft_contract with
    | none => (.error .noDraftAvailable, s)
    | some draft =>
      let chat1 : List ChatMsg := s.negotiation_chat_history ++
        [{ role := "student", content := "I accept the counteroffer." }]
      let s1 : GameState := { s with
        negotiation_chat_history := [],
        negotiation_history := s.negotiation_history ++
          [{ chat_messages := chat1,
             final_decision := some "accept",
             final_contract := some draft,
             start_time := s.current_negotiation_start_time,
             end_time := some now }],
        contract := { draft with remaining_rounds := draft.length },
        negotiation_draft_contract := none,
        current_negotiation_start_time := none }
      (.ok (), s1)
  else
    let s1 :=
      if s.negotiation_draft_contract.isSome then
        { s with negotiation_chat_history := s.negotiation_chat_history ++
          [{ role := "student",
             content := "I have rejected the previous counteroffer. We can continue discussing terms." }] }
      else s
    (.ok (), { s1 with negotiation_draft_contract := none })

/-- The deduplication check of the save-ongoing-negotiation block
(`end_game_early` / `get_game_summary` in `app/routes/game.py`): it only
fires when the stored start time is truthy (present and non-empty
string) and the history is non-empty, and compares the last record
against the current start time and transcript. -/
def negotiation_already_saved (s : GameState) : Bool :=
  match s.negotiation_history.getLast?, s.current_negotiation_start_time with
  | some last, some t =>
      decide (t ≠ "" ∧ last.start_time = some t ∧
        last.chat_messages = s.negotiation_chat_history)
  | _, _ => false

/-- The shared save-ongoing-negotiation block of `end_game_early` and
`get_game_summary` (`app/routes/game.py`): when an open negotiation
exists (non-empty transcript or a draft), append it to history with
`final_decision = "ongoing"` if a draft exists and `"rejected"`
otherwise — unless the deduplication check fires. -/
def close_ongoing_negotiation (s : GameState) (now : String) : GameState :=
  if s.negotiation_chat_history ≠ [] ∨ s.negotiation_draft_contract ≠ none then
    if negotiation_already_saved s then s
    else
      { s with negotiation_history := s.negotiation_history ++
        [{ chat_messages := s.negotiation_chat_history,
           final_decision :=
             some (if s.negotiation_draft_contract.isSome then "ongoing" else "rejected"),
           final_contract := s.negotiation_draft_contract,
           start_time := s.current_negotiation_start_time,
           end_time := some now }] }
  else s

/-- `end_game_early` from `app/routes/game.py`: refuse if already over,
otherwise set `ended_early` and save any ongoing negotiation (with the
dedup check). -/
def end_game_early (now : String) (s : GameState) :
    Except ApiError Unit × GameState :=
  if is_game_over s then (.error .gameOver, s)
  else
    let s1 := { s with ended_early := true }
    (.ok (), close_ongoing_negotiation s1 now)

/-- The state effect of `get_game_summary` (`app/routes/game.py`): refuse
if the game is not over; otherwise save any ongoing negotiation — but
only when the game ended naturally (`not state.ended_early`), since
`end_game_early` already saved it.  The assembled read-only
`GameSummary` payload has no effect on the session and is elided. -/
def get_game_summary (now : String) (s : GameState) :
    Except ApiError Unit × GameState :=
  if ¬ is_game_over s then (.error .gameNotOver, s)
  else if ¬ s.ended_early then (.ok (), close_ongoing_negotiation s now)
  else (.ok (), s)

/-- The session states reachable through the core operations, starting
from `start_game`.  Every oracle input (config, AI decisions, chat
outcomes, timestamps, demand randomness, request payloads) is arbitrary
at every step. -/
inductive Reachable : GameState → Prop where
  | start (rounds : ℤ) (method : String) (history : List ℤ)
      (hm : method = "bootstrap" ∨ method = "normal") :
      Reachable (init_state rounds method history)
  | negotiate_step (cfg : NegotiationConfigData) (ai : Contract → Decision × String)
      (now : String) (req : NegotiateRequest) (s : GameState) :
      Reachable s → Reachable (negotiate cfg ai now req s).2
  | chat_step (cfg : NegotiationConfigData) (outcome : ChatOutcome)
      (message : String) (s : GameState) :
      Reachable s → Reachable (negotiation_chat cfg outcome message s).2
  | accept_counter_step (accept : Bool) (now : String) (s : GameState) :
      Reachable s → Reachable (accept_counter accept now s).2
  | place_order_step (params : EconomicParams) (q : ℤ) (ix : ℕ) (gauss : ℚ)
      (s : GameState) :
      Reachable s → Reachable (place_order params q ix gauss s).2
  | end_early_step (now : String) (s : GameState) :
      Reachable s → Reachable (end_game_early now s).2
  | summary_step (now : String) (s : GameState) :
      Reachable s → Reachable (get_game_summary now s).2

/-- A sequence of `place_order` calls, each with its own order quantity
and demand-randomness oracle, stopping at the first failure.  This is
specification scaffolding for "N successful advanceRound calls"; it is
not a function of the repository. -/
def place_order_iter (params : EconomicParams) (steps : List (ℤ × ℕ × ℚ))
    (s : GameState) : Except ApiError GameState :=
  match steps with
  | [] => .ok s
  | step :: rest =>
    match place_order params step.1 step.2.1 step.2.2 s with
    | (.ok _, s1) => place_order_iter params rest s1
    | (.error e, _) => .error e

/-- The price-structure invariant of the negotiation state machine: the
pending draft contract (when present) and the active contract (when it
still has rounds to run) both satisfy `buyback_price < wholesale_price`. -/
def ContractPriceInv (s : GameState) : Prop :=
  (∀ d, s.negotiation_draft_contract = some d →
    d.buyback_price < d.wholesale_price) ∧
  (0 < s.contract.remaining_rounds →
    s.contract.buyback_price < s.contract.wholesale_price)

/-- Witness fixture: default economic parameters. -/
def params_w : EconomicParams := {}

/-- Witness fixture: an accepted buyback contract of length 2. -/
def contract_w : Contract := Contract.create 20 4 "fraction" 0 2 "buyback" 0

/-- Witness fixture: a session on round 1 of 5 under `contract_w`. -/
def state_w : GameState :=
  { round_number := 1,
    total_rounds := 5,
    contract := contract_w,
    cumulative_buyer_profit := 0,
    cumulative_supplier_profit := 0,
    historical_demands := [7],
    method := "bootstrap" }

/-- The round output `place_order params_w 10 0 0 state_w` produces. -/
def out_w : RoundOutput :=
  { order_quantity := 10, realized_demand := 7, sales := 7, unsold := 3,
    returns := 0, leftovers := 3,
    buyer_revenue := 359, buyer_cost := 200, buyer_profit := 159,
    supplier_revenue := 200, supplier_cost := 120, supplier_profit := 80,
    retail_revenue := 350, salvage_revenue_buyer := 9,
    wholesale_cost_buyer := 200, wholesale_revenue_supplier := 200,
    production_cost_supplier := 120 }

/-- The round summary recorded by that call. -/
def summary_w : RoundSummary :=
  { round_index := 1, order_quantity := 10, realized_demand := 7,
    buyer_revenue := 359, buyer_cost := 200, buyer_profit := 159,
    supplier_revenue := 200, supplier_cost := 120, supplier_profit := 80,
    wholesale_price := 20, buyback_price := 4, cap_type := "fraction",
    cap_value := 0, contract_length := 2, remaining_rounds := 1,
    contract_type := "buyback", revenue_share := 0 }

/-- The session state after that call. -/
def state_w1 : GameState :=
  { round_number := 2,
    total_rounds := 5,
    contract := { contract_w with remaining_rounds := 1 },
    cumulative_buyer_profit := 159,
    cumulative_supplier_profit := 80,
    historical_demands := [7, 7],
    method := "bootstrap",
    total_demand := 7,
    total_sales := 7,
    total_returns := 0,
    total_leftovers := 3,
    round_summaries := [summary_w] }

theorem place_order_eval_w :
    place_order params_w 10 0 0 state_w = (.ok out_w, state_w1) := by
  norm_num [place_order, is_game_over, simulate_game_round, generate_demand,
    simulate_round, pyInt, state_w, contract_w, Contract.create, params_w,
    out_w, state_w1, summary_w, GameState.mk.injEq, Contract.mk.injEq,
    RoundOutput.mk.injEq, RoundSummary.mk.injEq, Prod.ext_iff]


/-- Witness fixture: a game-over session (round 6 of 5) whose contract
has also expired (`remaining_rounds = 0`). -/
def state_over_w : GameState :=
  { round_number := 6,
    total_rounds := 5,
    contract := Contract.create 20 4 "fraction" 0 0 "buyback" 0,
    cumulative_buyer_profit := 0,
    cumulative_supplier_profit := 0,
    historical_demands := [7],
    method := "bootstrap" }

/-- An external evaluation oracle that always rejects. -/
def ai_reject : Contract → Decision × String :=
  fun _ => (.reject, "declined")

/-- An external evaluation oracle that always accepts. -/
def ai_accept : Contract → Decision × String :=
  fun _ => (.accept, "agreed")

/-- Fixture: a session with an open negotiation (one supplier turn in the
transcript, a recorded start time, no draft) and no active contract. -/
def state_c3 : GameState :=
  { round_number := 1,
    total_rounds := 5,
    contract := Contract.create 0 0 "fraction" 0 0 "buyback" 0,
    cumulative_buyer_profit := 0,
    cumulative_supplier_profit := 0,
    historical_demands := [450],
    method := "bootstrap",
    negotiation_chat_history :=
      [{ role := "supplier",
         content := "The wholesale price is too low for me to operate profitably." }],
    initial_contract_type := some "buyback",
    current_negotiation_start_time := some "t0" }

/-- Fixture: a proposal whose length 0 violates the configured minimum
length 1 (all other terms valid). -/
def bad_request_c3 : NegotiateRequest :=
  { wholesale_price := 20, buyback_price := 4, cap_type := "fraction",
    cap_value := 0, length := 0, contract_type := "buyback",
    revenue_share := 0 }

/-- Fixture: a valid buyback proposal (wholesale 20, buyback 4,
length 3). -/
def req_c2 : NegotiateRequest :=
  { wholesale_price := 20, buyback_price := 4, cap_type := "fraction",
    cap_value := 0, length := 3, contract_type := "buyback",
    revenue_share := 0 }

/-- Fixture: a session that ended naturally (round 2 of 1, not ended
early) while a chat transcript is open and no negotiation start time was
ever recorded (the chat happened after a contract acceptance reset it). -/
def state_c8 : GameState :=
  { round_number := 2,
    total_rounds := 1,
    contract := { wholesale_price := 20, buyback_price := 4,
                  cap_type := "fraction", cap_value := 0, length := 1,
                  remaining_rounds := 0, contract_type := "buyback",
                  revenue_share := 0 },
    cumulative_buyer_profit := 159,
    cumulative_supplier_profit := 80,
    historical_demands := [7, 7],
    method := "bootstrap",
    negotiation_chat_history :=
      [{ role := "student", content := "hello" },
       { role := "supplier", content := "hi" }],
    initial_contract_type := some "buyback",
    current_negotiation_start_time := none }


/-- C1: with the stated economic parameters and the buyback contract
`wholesale=10, buyback=4, cap=fraction 0.3, length=3`, `simulate_round`
at `order=100, demand=70` yields `sales=70`, `unsold=30`, `returns=30`,
`leftovers=0`, buyer profit `2590` and supplier profit `25`. -/
theorem C1_buyback_example :
    (simulate_round
        { retail_price := 50, buyer_salvage_value := 3,
          return_shipping_buyer := 1, supplier_cost := 12,
          supplier_salvage_value := 12, return_handling_supplier := 1/2 }
        (Contract.create 10 4 "fraction" (3/10) 3 "buyback" 0)
        ⟨100, 70⟩).1.sales = 70 ∧
    (simulate_round
        { retail_price := 50, buyer_salvage_value := 3,
          return_shipping_buyer := 1, supplier_cost := 12,
          supplier_salvage_value := 12, return_handling_supplier := 1/2 }
        (Contract.create 10 4 "fraction" (3/10) 3 "buyback" 0)
        ⟨100, 70⟩).1.unsold = 30 ∧
    (simulate_round
        { retail_price := 50, buyer_salvage_value := 3,
          return_shipping_buyer := 1, supplier_cost := 12,
          supplier_salvage_value := 12, return_handling_supplier := 1/2 }
        (Contract.create 10 4 "fraction" (3/10) 3 "buyback" 0)
        ⟨100, 70⟩).1.returns = 30 ∧
    (simulate_round
        { retail_price := 50, buyer_salvage_value := 3,
          return_shipping_buyer := 1, supplier_cost := 12,
          supplier_salvage_value := 12, return_handling_supplier := 1/2 }
        (Contract.create 10 4 "fraction" (3/10) 3 "buyback" 0)
        ⟨100, 70⟩).1.leftovers = 0 ∧
    (simulate_round
        { retail_price := 50, buyer_salvage_value := 3,
          return_shipping_buyer := 1, supplier_cost := 12,
          supplier_salvage_value := 12, return_handling_supplier := 1/2 }
        (Contract.create 10 4 "fraction" (3/10) 3 "buyback" 0)
        ⟨100, 70⟩).1.buyer_profit = 2590 ∧
    (simulate_round
        { retail_price := 50, buyer_salvage_value := 3,
          return_shipping_buyer := 1, supplier_cost := 12,
          supplier_salvage_value := 12, return_handling_supplier := 1/2 }
        (Contract.create 10 4 "fraction" (3/10) 3 "buyback" 0)
        ⟨100, 70⟩).1.supplier_profit = 25 := by
  simp +decide only [simulate_round, Contract.create, pyInt]
  norm_num

/-- C10: for every contract type branch and all inputs, `simulate_round`
changes only `remaining_rounds` on the contract (decremented by one) and
copies the round input's order quantity and realized demand into the
output unchanged. -/
theorem C10_simulate_round_frame :
    ∀ (params : EconomicParams) (c : Contract) (inp : RoundInput),
      (simulate_round params c inp).2.wholesale_price = c.wholesale_price ∧
      (simulate_round params c inp).2.buyback_price = c.buyback_price ∧
      (simulate_round params c inp).2.cap_type = c.cap_type ∧
      (simulate_round params c inp).2.cap_value = c.cap_value ∧
      (simulate_round params c inp).2.length = c.length ∧
      (simulate_round params c inp).2.contract_type = c.contract_type ∧
      (simulate_round params c inp).2.revenue_share = c.revenue_share ∧
      (simulate_round params c inp).2.remaining_rounds = c.remaining_rounds - 1 ∧
      (simulate_round params c inp).1.order_quantity = inp.order_quantity ∧
      (simulate_round params c inp).1.realized_demand = inp.realized_demand := by
  intro params c inp
  refine ⟨rfl, rfl, rfl, rfl, rfl, rfl, rfl, rfl, ?_, ?_⟩ <;>
    (simp only [simulate_round]; split_ifs <;> rfl)

/-- C6: the pure no-AI fallback evaluation rejects exactly when
`buyback >= wholesale`, or `wholesale < supplierCost + 1`, or
`buyback > wholesale - 1`, or `wholesale < supplierCost + 1 + 4`; it
accepts otherwise, and never returns a counter contract. -/
theorem C6_no_ai_fallback_characterization :
    ∀ (params : EconomicParams) (proposed : Contract),
      ((supplier_evaluate_no_ai params proposed).1 = .reject ↔
        (proposed.buyback_price ≥ proposed.wholesale_price ∨
         proposed.wholesale_price < params.supplier_cost + 1 ∨
         proposed.buyback_price > proposed.wholesale_price - 1 ∨
         proposed.wholesale_price < params.supplier_cost + 1 + 4)) ∧
      ((supplier_evaluate_no_ai params proposed).1 = .accept ↔
        ¬(proposed.buyback_price ≥ proposed.wholesale_price ∨
          proposed.wholesale_price < params.supplier_cost + 1 ∨
          proposed.buyback_price > proposed.wholesale_price - 1 ∨
          proposed.wholesale_price < params.supplier_cost + 1 + 4)) ∧
      (supplier_evaluate_no_ai params proposed).2.2 = none := by
  intro params proposed
  unfold supplier_evaluate_no_ai supplier_evaluate_contract
    evaluate_proposal_simple_logic
  dsimp only
  split_ifs with h1 h2 h3 h4 <;> simp_all

/-- C7: bootstrap demand generation on a non-empty history always
returns an element of that history, and any method other than
`"bootstrap"` or `"normal"` fails with the invalid-method error. -/
theorem C7_generate_demand_bootstrap :
    (∀ (hist : List ℤ) (ix : ℕ) (g : ℚ), hist ≠ [] →
       ∃ d, generate_demand hist "bootstrap" ix g = .ok d ∧ d ∈ hist) ∧
    (∀ (hist : List ℤ) (method : String) (ix : ℕ) (g : ℚ),
       method ≠ "bootstrap" → method ≠ "normal" →
       generate_demand hist method ix g = .error .invalidMethod) := by
  constructor
  · intro hist ix g hne
    have hlen : ix % hist.length < hist.length :=
      Nat.mod_lt _ (List.length_pos.mpr hne)
    refine ⟨hist.getD (ix % hist.length) 0, ?_, ?_⟩
    · simp [generate_demand, List.isEmpty_iff, hne]
    · rw [List.getD_eq_getElem hist 0 hlen]
      exact List.getElem_mem hlen
  · intro hist m ix g h1 h2
    simp [generate_demand, h1, h2]

/-- Witness for C7 at a concrete history and method. -/
theorem C7_witness :
    (∃ d, generate_demand [450, 520] "bootstrap" 3 0 = .ok d ∧
      d ∈ [450, 520]) ∧
    generate_demand [450, 520] "uniform" 0 0 = .error .invalidMethod :=
  ⟨C7_generate_demand_bootstrap.1 [450, 520] 3 0 (by decide),
   C7_generate_demand_bootstrap.2 [450, 520] "uniform" 0 0
     (by decide) (by decide)⟩

theorem simulate_game_round_ok_spec
    (params : EconomicParams) (s : GameState) (q : ℤ) (ix : ℕ) (g : ℚ)
    (out : RoundOutput) (s1 : GameState)
    (h : simulate_game_round params s q ix g = .ok (out, s1)) :
    s1.contract = { s.contract with
      remaining_rounds := s.contract.remaining_rounds - 1 } ∧
    s1.round_number = s.round_number + 1 ∧
    s1.negotiation_draft_contract = s.negotiation_draft_contract ∧
    s1.negotiation_chat_history = s.negotiation_chat_history ∧
    s1.negotiation_history = s.negotiation_history ∧
    s1.ended_early = s.ended_early ∧
    s1.total_rounds = s.total_rounds ∧
    s1.current_negotiation_start_time = s.current_negotiation_start_time ∧
    s1.initial_contract_type = s.initial_contract_type ∧
    ∃ m, s1.round_summaries = s.round_summaries ++ [m] ∧
      m.remaining_rounds = s.contract.remaining_rounds - 1 ∧
      m.wholesale_price = s.contract.wholesale_price ∧
      m.buyback_price = s.contract.buyback_price ∧
      m.cap_type = s.contract.cap_type ∧
      m.cap_value = s.contract.cap_value ∧
      m.contract_length = s.contract.length ∧
      m.contract_type = s.contract.contract_type ∧
      m.revenue_share = s.contract.revenue_share ∧
      m.round_index = s.round_number := by
  unfold simulate_game_round at h
  cases hd : generate_demand s.historical_demands s.method ix g with
  | error e => rw [hd] at h; simp at h
  | ok D =>
    rw [hd] at h
    simp only [Except.ok.injEq, Prod.mk.injEq] at h
    obtain ⟨hout, hs1⟩ := h
    subst hs1
    refine ⟨rfl, rfl, rfl, rfl, rfl, rfl, rfl, rfl, rfl, ?_⟩
    exact ⟨_, rfl, rfl, rfl, rfl, rfl, rfl, rfl, rfl, rfl, rfl⟩

theorem place_order_ok_spec
    (params : EconomicParams) (q : ℤ) (ix : ℕ) (g : ℚ) (s : GameState)
    (out : RoundOutput) (s1 : GameState)
    (h : place_order params q ix g s = (.ok out, s1)) :
    is_game_over s = false ∧ 0 < s.contract.remaining_rounds ∧
    simulate_game_round params s q ix g = .ok (out, s1) := by
  unfold place_order at h
  by_cases h1 : is_game_over s = true
  · simp [h1] at h
  · by_cases h2 : s.contract.remaining_rounds ≤ 0
    · simp [h1, h2] at h
    · cases hd : simulate_game_round params s q ix g with
      | error e => simp [h1, h2, hd] at h
      | ok p =>
        obtain ⟨o2, s2⟩ := p
        simp [h1, h2, hd] at h
        refine ⟨by simpa using h1, by omega, ?_⟩
        rw [h.1, h.2]


theorem place_order_iter_spec (params : EconomicParams) :
    ∀ (steps : List (ℤ × ℕ × ℚ)) (s s' : GameState),
      place_order_iter params steps s = .ok s' →
      (s'.contract.wholesale_price = s.contract.wholesale_price ∧
       s'.contract.buyback_price = s.contract.buyback_price ∧
       s'.contract.cap_type = s.contract.cap_type ∧
       s'.contract.cap_value = s.contract.cap_value ∧
       s'.contract.length = s.contract.length ∧
       s'.contract.contract_type = s.contract.contract_type ∧
       s'.contract.revenue_share = s.contract.revenue_share) ∧
      s'.contract.remaining_rounds =
        s.contract.remaining_rounds - steps.length ∧
      (steps = [] → s' = s) ∧
      (steps ≠ [] → ∃ m, s'.round_summaries.getLast? = some m ∧
        m.remaining_rounds = s.contract.remaining_rounds - steps.length ∧
        m.wholesale_price = s.contract.wholesale_price ∧
        m.buyback_price = s.contract.buyback_price ∧
        m.cap_type = s.contract.cap_type ∧
        m.cap_value = s.contract.cap_value ∧
        m.contract_length = s.contract.length ∧
        m.contract_type = s.contract.contract_type ∧
        m.revenue_share = s.contract.revenue_share) := by
  intro steps
  induction steps with
  | nil =>
    intro s s' h
    simp only [place_order_iter, Except.ok.injEq] at h
    subst h
    simp
  | cons step rest ih =>
    intro s s' h
    unfold place_order_iter at h
    rcases hpo : place_order params step.1 step.2.1 step.2.2 s with ⟨r, s1⟩
    rw [hpo] at h
    cases r with
    | error e => simp at h
    | ok out =>
      simp only at h
      have hone := place_order_ok_spec params step.1 step.2.1 step.2.2 s out s1 hpo
      have hspec := simulate_game_round_ok_spec params s step.1 step.2.1 step.2.2
        out s1 hone.2.2
      have hc : s1.contract = { s.contract with
          remaining_rounds := s.contract.remaining_rounds - 1 } := hspec.1
      have hrest := ih s1 s' h
      have hc1 : s1.contract.remaining_rounds = s.contract.remaining_rounds - 1 := by
        rw [hc]
      obtain ⟨m0, hm0, hr0, hw0, hb0, hct0, hcv0, hl0, hty0, hrs0, hri0⟩ :=
        hspec.2.2.2.2.2.2.2.2.2
      constructor
      · rw [hrest.1.1, hrest.1.2.1, hrest.1.2.2.1, hrest.1.2.2.2.1,
          hrest.1.2.2.2.2.1, hrest.1.2.2.2.2.2.1, hrest.1.2.2.2.2.2.2, hc]
        exact ⟨rfl, rfl, rfl, rfl, rfl, rfl, rfl⟩
      refine ⟨?_, ?_, ?_⟩
      · have := hrest.2.1
        rw [hc1] at this
        simp only [List.length_cons]
        omega
      · intro hcontra; simp at hcontra
      · intro _
        by_cases hre : rest = []
        · subst hre
          have hs' : s' = s1 := hrest.2.2.1 rfl
          subst hs'
          refine ⟨m0, ?_, ?_⟩
          · rw [hm0, List.getLast?_concat]
          · simp only [List.length_cons, List.length_nil]
            exact ⟨by rw [hr0]; omega, hw0, hb0, hct0, hcv0, hl0, hty0, hrs0⟩
        · obtain ⟨m, hm, hmf⟩ := hrest.2.2.2 hre
          refine ⟨m, hm, ?_, ?_, ?_, ?_, ?_, ?_, ?_, ?_⟩
          · rw [hmf.1, hc1]
            simp only [List.length_cons]
            omega
          · rw [hmf.2.1, hc]
          · rw [hmf.2.2.1, hc]
          · rw [hmf.2.2.2.1, hc]
          · rw [hmf.2.2.2.2.1, hc]
          · rw [hmf.2.2.2.2.2.1, hc]
          · rw [hmf.2.2.2.2.2.2.1, hc]
          · rw [hmf.2.2.2.2.2.2.2, hc]

/-- C5: `simulate_round` decrements `remaining_rounds` by exactly one,
and after N successful `place_order` calls starting from
`remaining_rounds = L` the contract has `remaining_rounds = L - N`. -/
theorem C5_remaining_rounds_countdown :
    (∀ (params : EconomicParams) (c : Contract) (inp : RoundInput),
       (simulate_round params c inp).2.remaining_rounds =
         c.remaining_rounds - 1) ∧
    (∀ (params : EconomicParams) (steps : List (ℤ × ℕ × ℚ))
       (s s' : GameState) (L : ℤ),
       s.contract.remaining_rounds = L →
       place_order_iter params steps s = .ok s' →
       s'.contract.remaining_rounds = L - steps.length) := by
  constructor
  · intro params c inp; rfl
  · intro params steps s s' L hL h
    have := (place_order_iter_spec params steps s s' h).2.1
    omega

/-- Witness for C5: one successful order on `state_w` (contract of
length 2, all rounds remaining) leaves exactly one remaining round. -/
theorem C5_witness :
    state_w.contract.remaining_rounds = 2 ∧
    place_order_iter params_w [(10, 0, 0)] state_w = .ok state_w1 ∧
    state_w1.contract.remaining_rounds = 1 := by
  have hrem : state_w.contract.remaining_rounds = 2 := rfl
  have hiter : place_order_iter params_w [(10, 0, 0)] state_w = .ok state_w1 := by
    unfold place_order_iter
    rw [place_order_eval_w]
    rfl
  have happ := C5_remaining_rounds_countdown.2 params_w [(10, 0, 0)]
    state_w state_w1 2 hrem hiter
  exact ⟨hrem, hiter, by simpa using happ⟩

/-- C9: after the k-th successful order under a contract created with
length L (`remaining_rounds = L` at the start), the summary appended for
that round records `remaining_rounds = L - k` (the post-decrement value)
while every other snapshotted field equals the term in force. -/
theorem C9_round_summary_snapshot :
    ∀ (params : EconomicParams) (steps : List (ℤ × ℕ × ℚ))
      (s s' : GameState) (L : ℤ),
      s.contract.remaining_rounds = L →
      s.contract.length = L →
      steps ≠ [] →
      place_order_iter params steps s = .ok s' →
      ∃ m, s'.round_summaries.getLast? = some m ∧
        m.remaining_rounds = L - steps.length ∧
        m.wholesale_price = s.contract.wholesale_price ∧
        m.buyback_price = s.contract.buyback_price ∧
        m.cap_type = s.contract.cap_type ∧
        m.cap_value = s.contract.cap_value ∧
        m.contract_length = L ∧
        m.contract_type = s.contract.contract_type ∧
        m.revenue_share = s.contract.revenue_share := by
  intro params steps s s' L hL hlen hne h
  obtain ⟨m, hm, hmf⟩ := (place_order_iter_spec params steps s s' h).2.2.2 hne
  refine ⟨m, hm, ?_, hmf.2.1, hmf.2.2.1, hmf.2.2.2.1, hmf.2.2.2.2.1, ?_,
    hmf.2.2.2.2.2.2.1, hmf.2.2.2.2.2.2.2⟩
  · rw [hmf.1, hL]
  · rw [hmf.2.2.2.2.2.1, hlen]

/-- Witness for C9: the single order on `state_w` (contract length 2)
appends `summary_w`, whose recorded `remaining_rounds` is `2 - 1 = 1`,
the post-decrement value. -/
theorem C9_witness :
    ∃ m, state_w1.round_summaries.getLast? = some m ∧
      m.remaining_rounds = 1 ∧
      m.wholesale_price = 20 ∧ m.buyback_price = 4 ∧
      m.cap_type = "fraction" ∧ m.cap_value = 0 ∧
      m.contract_length = 2 ∧ m.contract_type = "buyback" ∧
      m.revenue_share = 0 := by
  have hiter : place_order_iter params_w [(10, 0, 0)] state_w = .ok state_w1 := by
    unfold place_order_iter
    rw [place_order_eval_w]
    rfl
  obtain ⟨m, hm, h1, h2, h3, h4, h5, h6, h7, h8⟩ :=
    C9_round_summary_snapshot params_w [(10, 0, 0)] state_w state_w1 2
      rfl rfl (by simp) hiter
  exact ⟨m, hm, by simpa using h1, h2, h3, h4, h5, by simpa using h6, h7, h8⟩

/-- C4: `place_order` fails with the game-over error exactly when
`round_number > total_rounds` or `ended_early`, this check preceding the
contract check; only otherwise does it fail with the no-active-contract
error, exactly when `remaining_rounds <= 0`; when neither error fires it
simulates a round (on a session with a non-empty demand history and a
valid demand method this always succeeds and advances the round
counter).  In particular a game-over session with an expired contract
yields the game-over error, never the no-active-contract error. -/
theorem C4_place_order_precondition_order :
    ∀ (params : EconomicParams) (q : ℤ) (ix : ℕ) (g : ℚ) (s : GameState),
      ((place_order params q ix g s).1 = .error .gameOver ↔
        (s.total_rounds < s.round_number ∨ s.ended_early = true)) ∧
      ((place_order params q ix g s).1 = .error .noActiveContract ↔
        (¬(s.total_rounds < s.round_number ∨ s.ended_early = true) ∧
         s.contract.remaining_rounds ≤ 0)) ∧
      ((s.total_rounds < s.round_number ∨ s.ended_early = true) →
        place_order params q ix g s = (.error .gameOver, s)) ∧
      (¬(s.total_rounds < s.round_number ∨ s.ended_early = true) →
       0 < s.contract.remaining_rounds →
       s.historical_demands ≠ [] →
       (s.method = "bootstrap" ∨ s.method = "normal") →
       ∃ out s1, place_order params q ix g s = (.ok out, s1) ∧
         s1.round_number = s.round_number + 1) := by
  intro params q ix g s
  have hgo : is_game_over s = true ↔
      (s.total_rounds < s.round_number ∨ s.ended_early = true) := by
    simp [is_game_over]
  by_cases h1 : is_game_over s = true
  · refine ⟨?_, ?_, ?_, ?_⟩
    · simp [place_order, h1, hgo.mp h1]
    · constructor
      · intro hres
        exfalso
        revert hres
        simp [place_order, h1]
      · rintro ⟨hno, -⟩
        exact absurd (hgo.mp h1) hno
    · intro _; simp [place_order, h1]
    · intro hno
      exact absurd (hgo.mp h1) hno
  · have hgo2 : ¬(s.total_rounds < s.round_number ∨ s.ended_early = true) :=
      fun hc => h1 (hgo.mpr hc)
    by_cases h2 : s.contract.remaining_rounds ≤ 0
    · refine ⟨?_, ?_, ?_, ?_⟩
      · simp [place_order, h1, h2, hgo2]
      · simp [place_order, h1, h2, hgo2]
      · intro hc; exact absurd hc hgo2
      · intro _ hpos; omega
    · have hsucc : ∀ D, generate_demand s.historical_demands s.method ix g = .ok D →
          ∃ out s1, place_order params q ix g s = (.ok out, s1) ∧
            s1.round_number = s.round_number + 1 := by
        intro D hD
        have hsim : ∃ p, simulate_game_round params s q ix g = .ok p := by
          unfold simulate_game_round
          rw [hD]
          exact ⟨_, rfl⟩
        obtain ⟨⟨out1, s1⟩, hs⟩ := hsim
        have hspec := simulate_game_round_ok_spec params s q ix g out1 s1 hs
        refine ⟨out1, s1, ?_, hspec.2.1⟩
        simp [place_order, h1, h2, hs]
      refine ⟨?_, ?_, ?_, ?_⟩
      · constructor
        · intro hres
          exfalso
          revert hres
          simp only [place_order, h1, h2]
          simp
          cases hd : simulate_game_round params s q ix g with
          | error e => simp
          | ok p => obtain ⟨o, s1⟩ := p; simp
        · intro hc; exact absurd (hgo.mpr hc) h1
      · constructor
        · intro hres
          exfalso
          revert hres
          simp only [place_order, h1, h2]
          simp
          cases hd : simulate_game_round params s q ix g with
          | error e => simp
          | ok p => obtain ⟨o, s1⟩ := p; simp
        · intro hc; omega
      · intro hc; exact absurd hc hgo2
      · intro _ _ hne hm
        rcases hm with hb | hn
        · exact hsucc (s.historical_demands.getD (ix % s.historical_demands.length) 0)
            (by simp [generate_demand, hb, List.isEmpty_iff, hne])
        · exact hsucc (max 0 (pyInt g))
            (by simp [generate_demand, hn, List.isEmpty_iff, hne])

/-- Witness for C4: a game-over session with an expired contract yields
the game-over error, and a live session with an active contract
simulates a round. -/
theorem C4_witness :
    place_order params_w 10 0 0 state_over_w = (.error .gameOver, state_over_w) ∧
    (∃ out s1, place_order params_w 10 0 0 state_w = (.ok out, s1) ∧
       s1.round_number = state_w.round_number + 1) := by
  constructor
  · exact (C4_place_order_precondition_order params_w 10 0 0 state_over_w).2.2.1
      (by left; decide)
  · exact (C4_place_order_precondition_order params_w 10 0 0 state_w).2.2.2
      (by decide) (by decide) (by decide) (Or.inl rfl)

theorem mk_draft_from_json_buyback_lt (cfg : NegotiationConfigData)
    (ict : Option String) (raw : RawDraft) (d : Contract)
    (h : mk_draft_from_json cfg ict raw = some d) :
    d.buyback_price < d.wholesale_price := by
  simp only [mk_draft_from_json] at h
  split at h
  next hcond =>
    simp only [Option.some.injEq] at h
    subst h
    exact hcond.2.2
  next hcond =>
    simp at h

theorem generate_chat_response_draft_spec (cfg : NegotiationConfigData)
    (outcome : ChatOutcome) (cur : Option Contract) (ict : Option String) :
    (generate_chat_response cfg outcome cur ict).2 = none ∨
    (generate_chat_response cfg outcome cur ict).2 = cur ∨
    ∃ d, (generate_chat_response cfg outcome cur ict).2 = some d ∧
      d.buyback_price < d.wholesale_price := by
  cases outcome with
  | noClient => left; rfl
  | apiFailure k => right; left; rfl
  | parseFailure => right; left; rfl
  | reply msg raw =>
    cases raw with
    | none => left; rfl
    | some r =>
      cases hm : mk_draft_from_json cfg ict r with
      | none => left; simpa [generate_chat_response] using hm
      | some d =>
        right; right
        exact ⟨d, by simpa [generate_chat_response] using hm,
          mk_draft_from_json_buyback_lt cfg ict r d hm⟩

theorem supplier_evaluate_accept_implies
    (ai : Contract → Decision × String) (proposed : Contract) :
    (supplier_evaluate_contract ai proposed).1 = .accept →
    proposed.buyback_price < proposed.wholesale_price := by
  unfold supplier_evaluate_contract
  split_ifs with h
  · simp
  · intro _
    exact lt_of_not_ge h

theorem supplier_evaluate_guard_rejects
    (ai : Contract → Decision × String) (proposed : Contract)
    (h : proposed.buyback_price ≥ proposed.wholesale_price) :
    (supplier_evaluate_contract ai proposed).1 = .reject := by
  unfold supplier_evaluate_contract
  rw [if_pos h]

theorem inv_of_same_fields {s t : GameState} (hs : ContractPriceInv s)
    (hc : t.contract = s.contract)
    (hd : t.negotiation_draft_contract = s.negotiation_draft_contract) :
    ContractPriceInv t := by
  constructor
  · intro d hdd
    exact hs.1 d (hd ▸ hdd)
  · intro hpos
    rw [hc] at hpos ⊢
    exact hs.2 hpos

theorem inv_init (r : ℤ) (m : String) (h : List ℤ) :
    ContractPriceInv (init_state r m h) := by
  constructor
  · intro d hd
    simp [init_state] at hd
  · intro hpos
    simp [init_state, Contract.create] at hpos

theorem inv_no_draft {s t : GameState} (hs : ContractPriceInv s)
    (hc : t.contract = s.contract)
    (hd : t.negotiation_draft_contract = none) :
    ContractPriceInv t := by
  constructor
  · intro d hdd
    rw [hd] at hdd
    exact absurd hdd (by simp)
  · intro hpos
    rw [hc] at hpos ⊢
    exact hs.2 hpos

theorem begin_negotiation_contract (s : GameState) (now : String) :
    (begin_negotiation s now).contract = s.contract := by
  simp only [begin_negotiation]
  unfold force_close_previous
  split <;> rfl

theorem inv_activate (s : GameState) (p : Contract) (now : String)
    (hbw : p.buyback_price < p.wholesale_price) :
    ContractPriceInv (activate_contract s p now) := by
  constructor
  · intro d hd
    simp [activate_contract] at hd
  · intro _
    exact hbw

theorem inv_negotiate (cfg : NegotiationConfigData)
    (ai : Contract → Decision × String) (now : String)
    (req : NegotiateRequest) (s : GameState) (hs : ContractPriceInv s) :
    ContractPriceInv (negotiate cfg ai now req s).2 := by
  simp only [negotiate]
  split_ifs with h1 h2 h3 h4 h5 h6 h7 h8
  all_goals try exact hs
  all_goals try exact inv_no_draft hs (begin_negotiation_contract s now) rfl
  all_goals
    cases hev : (supplier_evaluate_contract ai
        (Contract.create req.wholesale_price req.buyback_price req.cap_type
          req.cap_value req.length req.contract_type req.revenue_share)).1 with
    | accept =>
      exact inv_activate _ _ now
        (supplier_evaluate_accept_implies ai _ hev)
    | reject =>
      exact inv_no_draft hs (begin_negotiation_contract s now) rfl

theorem inv_chat (cfg : NegotiationConfigData) (outcome : ChatOutcome)
    (msg : String) (s : GameState) (hs : ContractPriceInv s) :
    ContractPriceInv (negotiation_chat cfg outcome msg s).2 := by
  simp only [negotiation_chat]
  split_ifs with h1 h2
  · exact hs
  · rcases generate_chat_response_draft_spec cfg outcome
        s.negotiation_draft_contract s.initial_contract_type with
      hnone | hcur | ⟨d, hd, hbw⟩
    · rw [hnone] at h2
      simp at h2
    · exact inv_of_same_fields hs rfl hcur
    · constructor
      · intro d' hdd
        rw [hd] at hdd
        simp only [Option.some.injEq] at hdd
        subst hdd
        exact hbw
      · intro hpos
        exact hs.2 hpos
  · exact inv_of_same_fields hs rfl rfl

theorem inv_accept_counter (b : Bool) (now : String) (s : GameState)
    (hs : ContractPriceInv s) :
    ContractPriceInv (accept_counter b now s).2 := by
  simp only [accept_counter]
  split_ifs with h1 h2 h3
  · exact hs
  · cases hd : s.negotiation_draft_contract with
    | none => simp only [hd]; exact hs
    | some draft =>
      simp only [hd]
      constructor
      · intro d hdd
        simp at hdd
      · intro _
        exact hs.1 draft hd
  · exact inv_no_draft hs rfl rfl
  · exact inv_no_draft hs rfl rfl

theorem place_order_error_state (params : EconomicParams) (q : ℤ) (ix : ℕ)
    (g : ℚ) (s : GameState) (e : ApiError) :
    (place_order params q ix g s).1 = .error e →
    (place_order params q ix g s).2 = s := by
  simp only [place_order]
  split_ifs <;> try simp
  cases hd : simulate_game_round params s q ix g with
  | error e2 => simp
  | ok p =>
    obtain ⟨o, s1⟩ := p
    simp

theorem inv_place_order (params : EconomicParams) (q : ℤ) (ix : ℕ) (g : ℚ)
    (s : GameState) (hs : ContractPriceInv s) :
    ContractPriceInv (place_order params q ix g s).2 := by
  rcases hp : place_order params q ix g s with ⟨r, s1⟩
  cases r with
  | error e =>
    have h2 : (place_order params q ix g s).2 = s :=
      place_order_error_state params q ix g s e (by rw [hp])
    rw [hp] at h2
    simp only [hp]
    exact (show s1 = s from h2) ▸ hs
  | ok out =>
    have hone := place_order_ok_spec params q ix g s out s1 hp
    have hspec := simulate_game_round_ok_spec params s q ix g out s1 hone.2.2
    simp only [hp]
    constructor
    · intro d hd
      rw [hspec.2.2.1] at hd
      exact hs.1 d hd
    · intro hpos
      rw [hspec.1] at hpos ⊢
      exact hs.2 (by omega)

theorem close_ongoing_fields (s : GameState) (now : String) :
    (close_ongoing_negotiation s now).contract = s.contract ∧
    (close_ongoing_negotiation s now).negotiation_draft_contract =
      s.negotiation_draft_contract ∧
    (close_ongoing_negotiation s now).ended_early = s.ended_early ∧
    (close_ongoing_negotiation s now).round_number = s.round_number ∧
    (close_ongoing_negotiation s now).total_rounds = s.total_rounds ∧
    (close_ongoing_negotiation s now).negotiation_chat_history =
      s.negotiation_chat_history ∧
    (close_ongoing_negotiation s now).current_negotiation_start_time =
      s.current_negotiation_start_time := by
  unfold close_ongoing_negotiation
  split_ifs <;> exact ⟨rfl, rfl, rfl, rfl, rfl, rfl, rfl⟩

theorem inv_end_early (now : String) (s : GameState)
    (hs : ContractPriceInv s) :
    ContractPriceInv (end_game_early now s).2 := by
  simp only [end_game_early]
  split_ifs with h1
  · exact hs
  · exact inv_of_same_fields hs (close_ongoing_fields _ now).1
      (close_ongoing_fields _ now).2.1

theorem inv_summary (now : String) (s : GameState)
    (hs : ContractPriceInv s) :
    ContractPriceInv (get_game_summary now s).2 := by
  simp only [get_game_summary]
  split_ifs with h1 h2
  · exact hs
  · exact inv_of_same_fields hs (close_ongoing_fields _ now).1
      (close_ongoing_fields _ now).2.1
  · exact hs

/-- C2: in every reachable session state, an active contract (one with
rounds remaining) satisfies `buyback_price < wholesale_price` — covering
both activation paths, the accepted initial proposal and the accepted
chat draft; and an initial proposal with `buyback >= wholesale` is
rejected by `supplier_evaluate_contract` for every external decision
provider. -/
theorem C2_active_contract_price_invariant :
    (∀ s : GameState, Reachable s → 0 < s.contract.remaining_rounds →
       s.contract.buyback_price < s.contract.wholesale_price) ∧
    (∀ (ai : Contract → Decision × String) (proposed : Contract),
       proposed.buyback_price ≥ proposed.wholesale_price →
       (supplier_evaluate_contract ai proposed).1 = .reject) := by
  constructor
  · have key : ∀ s : GameState, Reachable s → ContractPriceInv s := by
      intro s hr
      induction hr with
      | start rounds method history hm => exact inv_init rounds method history
      | negotiate_step cfg ai now req s hr ih => exact inv_negotiate cfg ai now req s ih
      | chat_step cfg outcome message s hr ih => exact inv_chat cfg outcome message s ih
      | accept_counter_step accept now s hr ih => exact inv_accept_counter accept now s ih
      | place_order_step params q ix gauss s hr ih => exact inv_place_order params q ix gauss s ih
      | end_early_step now s hr ih => exact inv_end_early now s ih
      | summary_step now s hr ih => exact inv_summary now s ih
    exact fun s hr => (key s hr).2
  · exact supplier_evaluate_guard_rejects

/-- Witness for C2: accepting the concrete proposal `req_c2` on a fresh
session yields a reachable state whose active contract satisfies
`buyback < wholesale`, and a proposal with `buyback >= wholesale` is
rejected under an always-accepting provider oracle. -/
theorem C2_witness :
    0 < ((negotiate default_negotiation_config ai_accept "t0" req_c2
        (init_state 5 "bootstrap" [450])).2).contract.remaining_rounds ∧
    ((negotiate default_negotiation_config ai_accept "t0" req_c2
        (init_state 5 "bootstrap" [450])).2).contract.buyback_price <
      ((negotiate default_negotiation_config ai_accept "t0" req_c2
        (init_state 5 "bootstrap" [450])).2).contract.wholesale_price ∧
    (supplier_evaluate_contract ai_accept
        (Contract.create 10 12 "fraction" 0 3 "buyback" 0)).1 = .reject := by
  have hreach : Reachable ((negotiate default_negotiation_config ai_accept "t0"
      req_c2 (init_state 5 "bootstrap" [450])).2) :=
    Reachable.negotiate_step _ _ _ _ _
      (Reachable.start 5 "bootstrap" [450] (Or.inl rfl))
  have hpos : 0 < ((negotiate default_negotiation_config ai_accept "t0" req_c2
      (init_state 5 "bootstrap" [450])).2).contract.remaining_rounds := by
    norm_num [negotiate, is_game_over, has_active_contract, init_state,
      begin_negotiation, force_close_previous, activate_contract,
      Contract.create, req_c2, default_negotiation_config,
      supplier_evaluate_contract, ai_accept]
  refine ⟨hpos, C2_active_contract_price_invariant.1 _ hreach hpos,
    C2_active_contract_price_invariant.2 ai_accept _ ?_⟩
  norm_num [Contract.create]

/-- Counterexample to C3: on a session with an open negotiation
(`state_c3`), a `negotiate` call whose proposal violates the length
validation fails with an error, yet the open transcript has been
cleared, a record has been appended to the negotiation history, and the
start time has been overwritten — the session is not left as it was. -/
theorem C3_counterexample :
    (negotiate default_negotiation_config ai_reject "t1" bad_request_c3
      state_c3).1 = .error .invalidLength ∧
    (negotiate default_negotiation_config ai_reject "t1" bad_request_c3
      state_c3).2.negotiation_chat_history ≠ state_c3.negotiation_chat_history ∧
    (negotiate default_negotiation_config ai_reject "t1" bad_request_c3
      state_c3).2.negotiation_history ≠ state_c3.negotiation_history ∧
    (negotiate default_negotiation_config ai_reject "t1" bad_request_c3
      state_c3).2.current_negotiation_start_time ≠
        state_c3.current_negotiation_start_time := by
  norm_num [negotiate, is_game_over, has_active_contract, begin_negotiation,
    force_close_previous, state_c3, bad_request_c3,
    default_negotiation_config, Contract.create]
  decide

set_option maxHeartbeats 1600000 in
/-- C3 as amended: `place_order` failures leave the session unchanged,
but a `negotiate` call that fails contract-type/length/cap-type/
cap-value/revenue-share validation leaves the session force-reset by
`begin_negotiation`: transcript cleared, draft cleared, start time
overwritten with the new timestamp, the previous open negotiation (when
one existed) appended to history as abandoned, and every other field
unchanged. -/
theorem C3_error_side_effects :
    (∀ (params : EconomicParams) (q : ℤ) (ix : ℕ) (g : ℚ) (s : GameState)
       (e : ApiError),
       (place_order params q ix g s).1 = .error e →
       (place_order params q ix g s).2 = s) ∧
    (∀ (cfg : NegotiationConfigData) (ai : Contract → Decision × String)
       (now : String) (req : NegotiateRequest) (s : GameState) (e : ApiError),
       (negotiate cfg ai now req s).1 = .error e →
       (e = .invalidContractType ∨ e = .invalidLength ∨ e = .invalidCapType ∨
        e = .invalidCapValue ∨ e = .invalidRevenueShare) →
       (negotiate cfg ai now req s).2 = begin_negotiation s now) ∧
    (∀ (cfg : NegotiationConfigData) (ai : Contract → Decision × String)
       (now : String) (req : NegotiateRequest) (s : GameState),
       ((negotiate cfg ai now req s).1 = .error .gameOver ∨
        (negotiate cfg ai now req s).1 = .error .contractAlreadyActive) →
       (negotiate cfg ai now req s).2 = s) ∧
    (∀ (s : GameState) (now : String),
       (begin_negotiation s now).negotiation_chat_history = [] ∧
       (begin_negotiation s now).negotiation_draft_contract = none ∧
       (begin_negotiation s now).current_negotiation_start_time = some now ∧
       (begin_negotiation s now).contract = s.contract ∧
       (begin_negotiation s now).round_number = s.round_number ∧
       (begin_negotiation s now).cumulative_buyer_profit =
         s.cumulative_buyer_profit ∧
       (begin_negotiation s now).cumulative_supplier_profit =
         s.cumulative_supplier_profit ∧
       (begin_negotiation s now).round_summaries = s.round_summaries ∧
       (begin_negotiation s now).historical_demands = s.historical_demands ∧
       ((s.negotiation_chat_history = [] ∧ s.negotiation_draft_contract = none) →
         (begin_negotiation s now).negotiation_history = s.negotiation_history) ∧
       ((s.negotiation_chat_history ≠ [] ∨ s.negotiation_draft_contract ≠ none) →
         (begin_negotiation s now).negotiation_history =
           s.negotiation_history ++
             [{ chat_messages := s.negotiation_chat_history,
                final_decision := none, final_contract := none,
                start_time := none, end_time := some now }])) := by
  refine ⟨place_order_error_state, ?_, ?_, ?_⟩
  · intro cfg ai now req s e h1 h2
    revert h1
    simp only [negotiate]
    split_ifs <;>
      cases hev : (supplier_evaluate_contract ai
        (Contract.create req.wholesale_price req.buyback_price req.cap_type
          req.cap_value req.length req.contract_type req.revenue_share)).1 <;>
      intro h1
    all_goals simp at h1
    all_goals try rfl
    all_goals (rcases h2 with h | h | h | h | h <;> simp_all)
  · intro cfg ai now req s h1
    rcases h1 with h1 | h1 <;>
    · revert h1
      simp only [negotiate]
      split_ifs <;>
        cases hev : (supplier_evaluate_contract ai
          (Contract.create req.wholesale_price req.buyback_price req.cap_type
            req.cap_value req.length req.contract_type req.revenue_share)).1 <;>
        intro h1
      all_goals simp at h1
      all_goals rfl
  · intro s now
    refine ⟨rfl, rfl, rfl, begin_negotiation_contract s now, ?_⟩
    simp only [begin_negotiation, force_close_previous]
    split_ifs with h1
    · exact ⟨rfl, rfl, rfl, rfl, rfl, fun hc => absurd h1 (by simp [hc.1, hc.2]),
        fun _ => rfl⟩
    · refine ⟨rfl, rfl, rfl, rfl, rfl, fun _ => rfl, fun hc => absurd hc h1⟩

/-- Witness for C3 as amended: the game-over failure of `place_order`
leaves `state_over_w` unchanged, and the invalid-length failure of
`negotiate` on `state_c3` leaves exactly the `begin_negotiation` reset,
whose transcript is empty. -/
theorem C3_witness :
    (place_order params_w 10 0 0 state_over_w).2 = state_over_w ∧
    (negotiate default_negotiation_config ai_reject "t1" bad_request_c3
      state_c3).2 = begin_negotiation state_c3 "t1" ∧
    (begin_negotiation state_c3 "t1").negotiation_chat_history = [] := by
  have h1 : (place_order params_w 10 0 0 state_over_w).1 = .error .gameOver := by
    norm_num [place_order, is_game_over, state_over_w]
  have h2 : (negotiate default_negotiation_config ai_reject "t1" bad_request_c3
      state_c3).1 = .error .invalidLength := by
    norm_num [negotiate, is_game_over, has_active_contract, state_c3,
      bad_request_c3, default_negotiation_config, Contract.create]
  exact ⟨C3_error_side_effects.1 params_w 10 0 0 state_over_w .gameOver h1,
    C3_error_side_effects.2.1 default_negotiation_config ai_reject "t1"
      bad_request_c3 state_c3 .invalidLength h2 (Or.inr (Or.inl rfl)),
    (C3_error_side_effects.2.2.2 state_c3 "t1").1⟩

theorem close_not_open (s : GameState) (now : String)
    (h : ¬(s.negotiation_chat_history ≠ [] ∨
        s.negotiation_draft_contract ≠ none)) :
    close_ongoing_negotiation s now = s := by
  unfold close_ongoing_negotiation
  rw [if_neg h]

theorem close_saved (s : GameState) (now : String)
    (h1 : s.negotiation_chat_history ≠ [] ∨ s.negotiation_draft_contract ≠ none)
    (h2 : negotiation_already_saved s = true) :
    close_ongoing_negotiation s now = s := by
  unfold close_ongoing_negotiation
  rw [if_pos h1, if_pos h2]

theorem close_append (s : GameState) (now : String)
    (h1 : s.negotiation_chat_history ≠ [] ∨ s.negotiation_draft_contract ≠ none)
    (h2 : negotiation_already_saved s = false) :
    close_ongoing_negotiation s now =
      { s with negotiation_history := s.negotiation_history ++
        [{ chat_messages := s.negotiation_chat_history,
           final_decision :=
             some (if s.negotiation_draft_contract.isSome then "ongoing" else "rejected"),
           final_contract := s.negotiation_draft_contract,
           start_time := s.current_negotiation_start_time,
           end_time := some now }] } := by
  unfold close_ongoing_negotiation
  rw [if_pos h1, if_neg (by rw [h2]; simp)]

theorem close_twice (s : GameState) (now now' : String) (t : String)
    (hst : s.current_negotiation_start_time = some t) (ht : t ≠ "") :
    close_ongoing_negotiation (close_ongoing_negotiation s now) now' =
      close_ongoing_negotiation s now := by
  by_cases hopen : s.negotiation_chat_history ≠ [] ∨
      s.negotiation_draft_contract ≠ none
  · by_cases hsaved : negotiation_already_saved s = true
    · rw [close_saved s now hopen hsaved]
      exact close_saved s now' hopen hsaved
    · rw [close_append s now hopen (by simpa using hsaved)]
      apply close_saved
      · exact hopen
      · unfold negotiation_already_saved
        rw [List.getLast?_concat]
        simp only [hst]
        simp [ht]
  · rw [close_not_open s now hopen]
    exact close_not_open s now' hopen

theorem summary_state (now : String) (s : GameState)
    (hgo : is_game_over s = true) (hne : s.ended_early = false) :
    (get_game_summary now s).2 = close_ongoing_negotiation s now := by
  simp [get_game_summary, hgo, hne]

/-- Counterexample to C8: on `state_c8` — a game that ended naturally
with an open chat transcript whose negotiation start time was never
recorded — invoking the summary closing path twice appends the same open
negotiation (same `none` start time, same transcript) twice: the
deduplication check is skipped because the start time is missing. -/
theorem C8_counterexample :
    (get_game_summary "t2" (get_game_summary "t1" state_c8).2).2.negotiation_history =
      [{ chat_messages :=
           [{ role := "student", content := "hello" },
            { role := "supplier", content := "hi" }],
         final_decision := some "rejected",
         final_contract := none,
         start_time := none,
         end_time := some "t1" },
       { chat_messages :=
           [{ role := "student", content := "hello" },
            { role := "supplier", content := "hi" }],
         final_decision := some "rejected",
         final_contract := none,
         start_time := none,
         end_time := some "t2" }] := by
  have h1 : (get_game_summary "t1" state_c8).2 =
      close_ongoing_negotiation state_c8 "t1" :=
    summary_state "t1" state_c8 (by decide) rfl
  have h2 : close_ongoing_negotiation state_c8 "t1" =
      { state_c8 with negotiation_history :=
        [{ chat_messages := state_c8.negotiation_chat_history,
           final_decision := some "rejected",
           final_contract := none,
           start_time := none,
           end_time := some "t1" }] } := by
    rw [close_append state_c8 "t1" (by left; simp [state_c8]) rfl]
    rfl
  rw [h1, h2]
  have h3 : ∀ rec1 : NegotiationRecord,
      (get_game_summary "t2" { state_c8 with negotiation_history := [rec1] }).2 =
        close_ongoing_negotiation
          { state_c8 with negotiation_history := [rec1] } "t2" :=
    fun rec1 => summary_state "t2" _ rfl rfl
  rw [h3, close_append _ "t2" (by left; simp [state_c8])
    (by unfold negotiation_already_saved; rfl)]
  rfl

/-- C8 as amended: ending a game twice cannot double-append an open
negotiation *except* when no start time was recorded.  Precisely:
(a) after a successful `end_game_early`, a subsequent `get_game_summary`
leaves the session untouched (it never appends when `ended_early` is
set); (b) invoking the summary closing path twice on a naturally ended
game appends at most once provided the open negotiation has a recorded
non-empty start time (without one the dedup check is skipped and the
same negotiation is appended again, as the counterexample shows); and
(c) when the closing path does append, the record carries
`final_decision = "ongoing"` if a draft exists and `"rejected"`
otherwise, with the current transcript and start time. -/
theorem C8_terminal_close_dedup :
    (∀ (s : GameState) (now now' : String) (u : Unit) (s1 : GameState),
       end_game_early now s = (.ok u, s1) →
       (get_game_summary now' s1).2 = s1) ∧
    (∀ (s : GameState) (now now' t : String),
       is_game_over s = true → s.ended_early = false →
       s.current_negotiation_start_time = some t → t ≠ "" →
       (get_game_summary now' (get_game_summary now s).2).2 =
         (get_game_summary now s).2) ∧
    (∀ (s : GameState) (now : String),
       is_game_over s = true → s.ended_early = false →
       (s.negotiation_chat_history ≠ [] ∨ s.negotiation_draft_contract ≠ none) →
       negotiation_already_saved s = false →
       (get_game_summary now s).2.negotiation_history =
         s.negotiation_history ++
           [{ chat_messages := s.negotiation_chat_history,
              final_decision := some (if s.negotiation_draft_contract.isSome
                then "ongoing" else "rejected"),
              final_contract := s.negotiation_draft_contract,
              start_time := s.current_negotiation_start_time,
              end_time := some now }]) := by
  refine ⟨?_, ?_, ?_⟩
  · intro s now now' u s1 h
    unfold end_game_early at h
    split_ifs at h with hgo
    · simp at h
    · simp only [Prod.mk.injEq] at h
      have hs1 : s1 = close_ongoing_negotiation { s with ended_early := true } now :=
        h.2.symm
      have hend : s1.ended_early = true := by
        rw [hs1, (close_ongoing_fields _ now).2.2.1]
      simp [get_game_summary, is_game_over, hend]
  · intro s now now' t hgo hne hst ht
    rw [summary_state now s hgo hne]
    have hgo1 : is_game_over (close_ongoing_negotiation s now) = true := by
      unfold is_game_over at hgo ⊢
      rw [(close_ongoing_fields s now).2.2.2.1,
        (close_ongoing_fields s now).2.2.2.2.1,
        (close_ongoing_fields s now).2.2.1]
      exact hgo
    have hne1 : (close_ongoing_negotiation s now).ended_early = false := by
      rw [(close_ongoing_fields s now).2.2.1]
      exact hne
    rw [summary_state now' _ hgo1 hne1]
    exact close_twice s now now' t hst ht
  · intro s now hgo hne hopen hsaved
    rw [summary_state now s hgo hne, close_append s now hopen hsaved]

/-- Witness for C8 as amended: end-early then summary on `state_w`
leaves the ended session untouched; a double summary on `state_c8` with
a recorded start time `"t0"` appends only once; and the single append on
`state_c8` carries `final_decision = "rejected"` (no draft). -/
theorem C8_witness :
    (get_game_summary "t2" (end_game_early "t1" state_w).2).2 =
      (end_game_early "t1" state_w).2 ∧
    (get_game_summary "t2" (get_game_summary "t1"
        { state_c8 with current_negotiation_start_time := some "t0" }).2).2 =
      (get_game_summary "t1"
        { state_c8 with current_negotiation_start_time := some "t0" }).2 ∧
    (get_game_summary "t1" state_c8).2.negotiation_history =
      state_c8.negotiation_history ++
        [{ chat_messages := state_c8.negotiation_chat_history,
           final_decision := some "rejected",
           final_contract := none,
           start_time := none,
           end_time := some "t1" }] := by
  refine ⟨?_, ?_, ?_⟩
  · have h1 : end_game_early "t1" state_w =
        (.ok (), (end_game_early "t1" state_w).2) := by
      exact (Prod.mk.eta).symm
    exact C8_terminal_close_dedup.1 state_w "t1" "t2" ()
      (end_game_early "t1" state_w).2 h1
  · exact C8_terminal_close_dedup.2.1
      { state_c8 with current_negotiation_start_time := some "t0" }
      "t1" "t2" "t0" (by decide) rfl rfl (by decide)
  · exact C8_terminal_close_dedup.2.2 state_c8 "t1" (by decide) rfl
      (by left; simp [state_c8]) rfl
